/-
Verification of the Binance price-monitor bot (binance_bot.py / config.py)
against its natural-language specification.

Shallow embedding conventions:
* prices, thresholds and timestamps are rationals (ℚ); timestamps are in
  seconds (Python compares ISO datetimes, which is order-isomorphic to the
  underlying time value; `timedelta(minutes=w)` becomes `w * 60` seconds,
  `timedelta(hours=h)` becomes `h * 3600` seconds);
* Python dicts used as maps become association lists with the source's
  defaulting behaviour (`dict.get(key, 0)` etc.);
* the network calls of `send_telegram` are embedded by passing the outcome
  of the single HTTP attempt as an explicit parameter;
* `round(x, 2)` is modelled as exact rounding of a rational to two decimal
  places (Python rounds binary floats half-to-even; no claim below depends
  on tie behaviour or on float rounding error).
-/
import Mathlib

/-! ## Price history store (`PriceHistory`, binance_bot.py lines 220-338) -/

/-- One element of `self.history[key]`: `{"timestamp": ..., "price": ...}`. -/
structure PriceEntry where
  timestamp : ℚ
  price : ℚ
  deriving DecidableEq, Repr

/-- `PriceHistory.cleanup_old_data` (lines 274-286): keep the entries whose
timestamp is strictly later than `current_time - timedelta(hours=max_hours)`. -/
def cleanup_old_data (max_hours current_time : ℚ) (series : List PriceEntry) :
    List PriceEntry :=
  series.filter (fun e => decide (current_time - max_hours * 3600 < e.timestamp))

/-- `PriceHistory.add_price` (lines 246-272) restricted to one series: a price
that is `None` or `≤ 0` is dropped (early return, no purge); otherwise the
entry is appended and then `cleanup_old_data` runs with the insertion time. -/
def add_price (max_hours : ℚ) (series : List PriceEntry) (price : Option ℚ)
    (now : ℚ) : List PriceEntry :=
  match price with
  | none => series
  | some p =>
    if p ≤ 0 then series
    else cleanup_old_data max_hours now (series ++ [⟨now, p⟩])

/-- The per-window result dict built by `get_price_changes`:
`{"start_price": ..., "current_price": ..., "change_percent": ...}`.
The "Insufficient" outcome of the spec is `start_price = none`
(the code stores `None` there and `change_percent = 0.0`). -/
structure ChangeData where
  start_price : Option ℚ
  current_price : ℚ
  change_percent : ℚ
  deriving DecidableEq, Repr

/-- Python `round(x, 2)` on the exact rational value. -/
def round2 (x : ℚ) : ℚ := ((round (x * 100) : ℤ) : ℚ) / 100

/-- The scan inside `get_price_changes` (lines 313-329): walk the series from
the oldest entry forward; the first entry with `entry_time >= window_start`
whose price is positive supplies `start_price` (`continue` skips an in-window
entry with `start_price <= 0`). -/
def findStart (window_start : ℚ) : List PriceEntry → Option ℚ
  | [] => none
  | e :: rest =>
    if window_start ≤ e.timestamp then
      if e.price ≤ 0 then findStart window_start rest
      else some e.price
    else findStart window_start rest

/-- `PriceHistory.get_price_changes` (lines 288-338) for a single integer
window, as the monitor loop calls it (`[config["window"]]`).  `none` is the
missing dict key (empty/absent series, line 292-293).  `current_price` and the
reference time `current_time` come from the latest stored entry;
`window_start = current_time - timedelta(minutes=window)`.  If the scan finds
no start, the code stores `start_price = None`, `change_percent = 0.0`
(lines 330-336). -/
def get_price_changes_window (series : List PriceEntry) (window : ℤ) :
    Option ChangeData :=
  match series.getLast? with
  | none => none
  | some last =>
    let current_price := last.price
    let window_start := last.timestamp - (window : ℚ) * 60
    match findStart window_start series with
    | some start_price =>
      some ⟨some start_price, current_price,
            round2 ((current_price - start_price) / start_price * 100)⟩
    | none => some ⟨none, current_price, 0⟩

/-- Spec-side description of the window anchor, used to compare with the
code's scan: the price of the earliest stored sample whose timestamp is
`≥ now − window` (scan from the oldest retained sample forward, first match). -/
def earliestInWindow (window_start : ℚ) (series : List PriceEntry) : Option ℚ :=
  (series.find? (fun e => decide (window_start ≤ e.timestamp))).map
    (fun e => e.price)

/-! ## Rule registry (`BotState`, binance_bot.py lines 25-218) -/

/-- One element of `state["monitoring_configs"]`. -/
structure MonitoringConfig where
  symbol : String
  market_type : String
  window : ℤ
  threshold : ℚ
  deriving DecidableEq, Repr

/-- The three outcomes of `BotState.add_config`: `True` / `False` / `None`. -/
inductive AddResult where
  | added
  | alreadyExists
  | capacityExceeded
  deriving DecidableEq, Repr

/-- The identity test used by `add_config` and `remove_config`
(lines 146-148): symbol, market type and window match; the threshold is not
part of the identity. -/
def sameIdentity (c : MonitoringConfig) (symbol market_type : String)
    (window : ℤ) : Bool :=
  c.symbol == symbol && c.market_type == market_type && c.window == window

/-- `BotState.add_config` (lines 134-163), with `window` already an integer
(the string-conversion preamble is the identity on integer input): first the
duplicate scan (return `False`), then the capacity check
`len(configs) >= MAX_MONITORING_CONFIGS` (return `None`), else append
(return `True`). -/
def add_config (max_configs : ℕ) (configs : List MonitoringConfig)
    (symbol market_type : String) (window : ℤ) (threshold : ℚ) :
    AddResult × List MonitoringConfig :=
  if configs.any (fun c => sameIdentity c symbol market_type window) then
    (.alreadyExists, configs)
  else if max_configs ≤ configs.length then
    (.capacityExceeded, configs)
  else
    (.added, configs ++ [⟨symbol, market_type, window, threshold⟩])

/-- `BotState.remove_config` with an explicit window (lines 165-186): rebuild
the list without the exact identity matches; report whether the length
changed. -/
def remove_config_window (configs : List MonitoringConfig)
    (symbol market_type : String) (window : ℤ) :
    Bool × List MonitoringConfig :=
  let remaining := configs.filter
    (fun c => !(sameIdentity c symbol market_type window))
  (decide (configs.length ≠ remaining.length), remaining)

/-! ## Alert evaluation (`BinanceMonitor.check_for_alerts`, lines 995-1028,
with the notifier `send_alert` / `send_telegram`, lines 357-364 / 430-452) -/

/-- Outcome of the single HTTP POST inside `send_telegram`. -/
inductive TelegramOutcome where
  | ok
  | httpError
  | exception
  deriving DecidableEq, Repr

/-- `NotificationManager.send_telegram` (lines 430-452): one POST attempt, no
retry; returns `True` on HTTP 200, `False` on a non-200 status or an
exception. -/
def send_telegram (outcome : TelegramOutcome) : Bool :=
  match outcome with
  | .ok => true
  | .httpError => false
  | .exception => false

/-- `NotificationManager.send_alert` (lines 357-364): returns immediately when
Telegram is disabled, otherwise performs exactly one `send_telegram` call and
ignores its result.  `true` here means the alert actually reached the
channel. -/
def send_alert_delivered (telegram_enabled : Bool) (outcome : TelegramOutcome) :
    Bool :=
  telegram_enabled && send_telegram outcome

/-- `self.last_alert_time.get(alert_key, 0)` (line 1017). -/
def dictGetQ (m : List (String × ℚ)) (k : String) : ℚ :=
  match m.find? (fun p => p.1 == k) with
  | some p => p.2
  | none => 0

/-- `self.last_alert_time[alert_key] = current_time` (line 1028). -/
def dictSetQ (m : List (String × ℚ)) (k : String) (v : ℚ) :
    List (String × ℚ) :=
  (k, v) :: m.filter (fun p => p.1 != k)

/-- The alert key `f"{symbol}_{market_type}_{window}"` (line 1015). -/
def alertKey (symbol market_type : String) (window : ℤ) : String :=
  symbol ++ "_" ++ market_type ++ "_" ++ toString window

/-- Result of one `check_for_alerts` evaluation: whether the cooldown branch
was taken (`send_alert` called), whether the message actually reached the
channel, and the updated `last_alert_time` map. -/
structure AlertCheckResult where
  attempted : Bool
  delivered : Bool
  newTimes : List (String × ℚ)
  deriving DecidableEq, Repr

/-- `BinanceMonitor.check_for_alerts` (lines 995-1028).  Rejects a missing or
non-positive `start_price` or a non-positive `current_price`; rejects
`|change_percent| > 1000`; fires when `|change_percent| >= threshold` and
`now - last_alert > alert_cooldown` (strictly), in which case it calls
`send_alert` and then unconditionally writes `last_alert_time[key] = now` —
the write does not depend on the delivery outcome. -/
def check_for_alerts (alert_cooldown : ℚ) (telegram_enabled : Bool)
    (outcome : TelegramOutcome) (symbol market_type : String) (window : ℤ)
    (change : ChangeData) (threshold : ℚ) (times : List (String × ℚ))
    (now : ℚ) : AlertCheckResult :=
  match change.start_price with
  | none => ⟨false, false, times⟩
  | some sp =>
    if sp ≤ 0 ∨ change.current_price ≤ 0 then ⟨false, false, times⟩
    else if 1000 < |change.change_percent| then ⟨false, false, times⟩
    else if threshold ≤ |change.change_percent| then
      let key := alertKey symbol market_type window
      if alert_cooldown < now - dictGetQ times key then
        ⟨true, send_alert_delivered telegram_enabled outcome,
         dictSetQ times key now⟩
      else ⟨false, false, times⟩
    else ⟨false, false, times⟩

/-! ## Conversation engine (`NotificationManager`, binance_bot.py lines
340-839): input parsers, guided flow, command dispatch, update processing -/

/-- One step of ASCII whitespace stripping (Python `str.strip()` also strips
some further Unicode whitespace; every token the code compares against is
ASCII). -/
def dropLeadingWs : List Char → List Char
  | [] => []
  | c :: rest => if c.isWhitespace then dropLeadingWs rest else c :: rest

/-- Model of Python `str.strip()`: drop whitespace at both ends. -/
def pyStrip (s : String) : String :=
  ⟨(dropLeadingWs ((dropLeadingWs s.data).reverse)).reverse⟩

/-- ASCII lower-casing of one character (Python `str.lower()` restricted to
ASCII; the non-ASCII tokens the code compares are caseless). -/
def asciiLowerChar (c : Char) : Char :=
  if 'A' ≤ c && c ≤ 'Z' then Char.ofNat (c.toNat + 32) else c

/-- ASCII upper-casing of one character. -/
def asciiUpperChar (c : Char) : Char :=
  if 'a' ≤ c && c ≤ 'z' then Char.ofNat (c.toNat - 32) else c

/-- Model of Python `str.lower()`. -/
def pyLower (s : String) : String := ⟨s.data.map asciiLowerChar⟩

/-- Model of Python `str.upper()`. -/
def pyUpper (s : String) : String := ⟨s.data.map asciiUpperChar⟩

/-- Whether `pat` is an initial segment of `hay`. -/
def startsWithChars : List Char → List Char → Bool
  | _, [] => true
  | [], _ :: _ => false
  | a :: as, p :: ps => a == p && startsWithChars as ps

/-- Whether `pat` occurs as a contiguous substring of `hay` (Python's
`pat in hay`). -/
def hasSubChars : List Char → List Char → Bool
  | [], pat => pat.isEmpty
  | a :: rest, pat => startsWithChars (a :: rest) pat || hasSubChars rest pat

/-- Digit-run parser shared by the models of Python `int()` and `float()`:
returns the value and the number of digits, accepting PEP-515 single
underscores between digits.  The Bool flag records a pending underscore that
still needs a following digit. -/
def pyDigitsCountAux : Bool → ℕ → ℕ → List Char → Option (ℕ × ℕ)
  | pending, acc, cnt, [] => if pending then none else some (acc, cnt)
  | pending, acc, cnt, c :: rest =>
    if c.isDigit then pyDigitsCountAux false (10 * acc + (c.toNat - 48)) (cnt + 1) rest
    else if c == '_' && !pending && cnt != 0 then pyDigitsCountAux true acc cnt rest
    else none

/-- Value and digit count of a (possibly empty) digit run. -/
def pyDigitsCount (s : List Char) : Option (ℕ × ℕ) :=
  pyDigitsCountAux false 0 0 s

/-- Optional leading sign; `true` means negative. -/
def pySign : List Char → Bool × List Char
  | '+' :: rest => (false, rest)
  | '-' :: rest => (true, rest)
  | rest => (false, rest)

/-- Model of Python `int(text)` on decimal strings: surrounding whitespace
stripped, optional sign, a non-empty digit run (with PEP-515 underscores);
anything else raises `ValueError`, modelled as `none`. -/
def pyInt (s : String) : Option ℤ :=
  let (neg, t) := pySign (pyStrip s).data
  match pyDigitsCount t with
  | some (v, cnt) =>
    if cnt == 0 then none
    else if neg then some (-(v : ℤ)) else some (v : ℤ)
  | none => none

/-- Split a character list at the first `e`/`E` (exponent marker). -/
def splitExp : List Char → List Char × Option (List Char)
  | [] => ([], none)
  | c :: rest =>
    if c == 'e' || c == 'E' then ([], some rest)
    else
      let p := splitExp rest
      (c :: p.1, p.2)

/-- Split a character list at the first `.` (decimal point). -/
def splitDot : List Char → List Char × Option (List Char)
  | [] => ([], none)
  | c :: rest =>
    if c == '.' then ([], some rest)
    else
      let p := splitDot rest
      (c :: p.1, p.2)

/-- Model of Python `float(text)` on finite decimal literals (optional sign,
integer and/or fractional digit runs, optional exponent); the non-finite
literals `inf`/`nan` are outside the model (no claim depends on them). -/
def pyFloat (s : String) : Option ℚ :=
  let (neg, t) := pySign (pyStrip s).data
  let (mant, expPart) := splitExp t
  let (ipChars, fpOpt) := splitDot mant
  match pyDigitsCount ipChars with
  | none => none
  | some (iv, icnt) =>
    let fr : Option (ℕ × ℕ) :=
      match fpOpt with
      | none => some (0, 0)
      | some fpChars => pyDigitsCount fpChars
    match fr with
    | none => none
    | some (fv, fcnt) =>
      if icnt == 0 && fcnt == 0 then none
      else
        let mag : ℚ := (iv : ℚ) + (fv : ℚ) / (10 : ℚ) ^ fcnt
        let base : ℚ := if neg then -mag else mag
        match expPart with
        | none => some base
        | some eChars =>
          let (eneg, et) := pySign eChars
          match pyDigitsCount et with
          | none => none
          | some (ev, ecnt) =>
            if ecnt == 0 then none
            else some (base * (10 : ℚ) ^ (if eneg then -(ev : ℤ) else (ev : ℤ)))

/-- The conversation states stored in `self.user_state[chat_id]["state"]`. -/
inductive ConvState where
  | IDLE
  | ADD_CONFIG_STEP1
  | ADD_CONFIG_STEP2
  | ADD_CONFIG_STEP3
  | ADD_CONFIG_STEP4
  | ADD_CONFIG_CONTINUE
  | START_MONITOR_QUESTION
  | REMOVE_CONFIG
  | REMOVE_CONFIG_SELECT
  deriving DecidableEq, Repr

/-- The `data` dict of a session, one optional field per key the flow
stores (`symbol`, `market_type`, `window`, `threshold`, `configs`). -/
structure SessionData where
  symbol : Option String := none
  market_type : Option String := none
  window : Option ℤ := none
  threshold : Option ℚ := none
  configsSnapshot : Option (List MonitoringConfig) := none
  deriving DecidableEq, Repr

/-- `BotState.get_formatted_symbol` (lines 216-218). -/
def get_formatted_symbol (symbol market_type : String) : String :=
  if market_type == "futures" then symbol ++ "_PERP" else symbol

/-- The `"_PERP" in symbol` check of step 1 (line 554). -/
def containsPERP (s : String) : Bool :=
  hasSubChars s.data "_PERP".data

/-- The `re.match(r"^[A-Z0-9]{5,12}$", symbol)` check of step 1 (line 558). -/
def validSymbolFormat (s : String) : Bool :=
  decide (5 ≤ s.length) && decide (s.length ≤ 12) &&
    s.toList.all (fun c => c.isDigit || ('A' ≤ c && c ≤ 'Z'))

/-- Market-type display name (`"永续合约" if futures else "现货"`). -/
def marketName (market_type : String) : String :=
  if market_type == "futures" then "永续合约" else "现货"

/-- First-occurrence-order deduplication of group keys, as iterating a Python
dict built by insertion does. -/
def dedupKeysAux (seen : List (String × String)) :
    List (String × String) → List (String × String)
  | [] => []
  | k :: rest =>
    if k ∈ seen then dedupKeysAux seen rest
    else k :: dedupKeysAux (k :: seen) rest

/-- One group block of `create_startup_message` (lines 419-426).  Numeric
rendering uses `toString`; Python's float formatting differs only in the
rendering of the digits, which no claim inspects. -/
def startupGroupBlock (configs : List MonitoringConfig)
    (key : String × String) : String :=
  let members := configs.filter
    (fun c => c.symbol == key.1 && c.market_type == key.2)
  "🔹 " ++ key.1 ++ " (" ++ marketName key.2 ++ "):\n" ++
    String.join (members.map (fun c =>
      "  - " ++ toString c.window ++ "分钟: 阈值 " ++ toString c.threshold ++
      "%\n")) ++ "\n"

/-- `NotificationManager.create_startup_message` (lines 399-428); the current
UTC time string is passed in explicitly. -/
def create_startup_message (check_interval : ℤ) (now_str : String)
    (configs : List MonitoringConfig) : String :=
  if configs.isEmpty then "⚠️ 没有监控配置，请添加监控配置"
  else
    let keys := dedupKeysAux [] (configs.map (fun c => (c.symbol, c.market_type)))
    "🚀 币安价格监控已启动\n\n" ++
    "• 监控开始时间: " ++ now_str ++ "\n" ++
    "• 监控配置数量: " ++ toString configs.length ++ "\n" ++
    "• 检查间隔: " ++ toString check_interval ++ "秒\n\n" ++
    "🔔 当前监控配置:\n\n" ++
    String.join (keys.map (startupGroupBlock configs))

/-- Result of one conversation step: the chat's new session (state, data), the
registry contents, the enabled flag, and the responses sent to the chat in
order. -/
structure FlowResult where
  state : ConvState
  data : SessionData
  configs : List MonitoringConfig
  enabled : Bool
  responses : List String
  deriving DecidableEq, Repr

/-- The cancel tokens checked first in `handle_guided_flow` (line 544). -/
def cancelTokens : List String := ["取消", "exit", "quit", "/cancel"]

/-- `NotificationManager.handle_guided_flow` (lines 538-760).  `text` arrives
already stripped (line 497).  The `ADD_CONFIG_STEP4` capacity branch is
modelled as the code behaves: `response_msg` is unbound there, so line 643
raises `UnboundLocalError`, which the outer `except` catches by resetting the
session and sending the error-reset message; likewise a missing `data` key
raises `KeyError` with the same reset. -/
def handle_guided_flow (max_configs : ℕ) (check_interval : ℤ) (now_str : String)
    (state : ConvState) (data : SessionData) (configs : List MonitoringConfig)
    (enabled : Bool) (text : String) : FlowResult :=
  if cancelTokens.contains (pyLower text) then
    ⟨.IDLE, {}, configs, enabled, ["❌ 操作已取消"]⟩
  else
    match state with
    | .IDLE =>
      ⟨state, data, configs, enabled, []⟩
    | .ADD_CONFIG_STEP1 =>
      let symbol := pyUpper text
      if containsPERP symbol then
        ⟨state, data, configs, enabled, ["⚠️ 请勿手动添加_PERP后缀，系统会自动处理"]⟩
      else if !validSymbolFormat symbol then
        ⟨state, data, configs, enabled, ["⚠️ 币种格式无效，请输入有效币种（如 BTCUSDT）"]⟩
      else
        ⟨.ADD_CONFIG_STEP2, { data with symbol := some symbol }, configs, enabled,
         ["📊 请选择交易类型:\n1. 现货交易\n2. 永续合约\n回复数字选择"]⟩
    | .ADD_CONFIG_STEP2 =>
      if ["1", "1. 现货", "现货"].contains text then
        ⟨.ADD_CONFIG_STEP3, { data with market_type := some "spot" }, configs,
         enabled, ["🕒 请输入监控时长（分钟）:"]⟩
      else if ["2", "2. 永续合约", "永续合约"].contains text then
        ⟨.ADD_CONFIG_STEP3, { data with market_type := some "futures" }, configs,
         enabled, ["🕒 请输入监控时长（分钟）:"]⟩
      else
        ⟨state, data, configs, enabled,
         ["⚠️ 请选择 \x271. 现货\x27 或 \x272. 永续合约\x27"]⟩
    | .ADD_CONFIG_STEP3 =>
      match pyInt text with
      | some w =>
        if w ≤ 0 then
          ⟨state, data, configs, enabled, ["⚠️ 监控时长无效，请输入大于0的整数"]⟩
        else
          ⟨.ADD_CONFIG_STEP4, { data with window := some w }, configs, enabled,
           ["📈 请输入涨跌幅阈值（百分比，如 0.5）:"]⟩
      | none =>
        ⟨state, data, configs, enabled, ["⚠️ 监控时长无效，请输入大于0的整数"]⟩
    | .ADD_CONFIG_STEP4 =>
      match pyFloat text with
      | some th =>
        if th ≤ 0 then
          ⟨state, data, configs, enabled, ["⚠️ 阈值无效，请输入大于0的数字"]⟩
        else
          match data.symbol, data.market_type, data.window with
          | some symbol, some market_type, some window =>
            let formatted := get_formatted_symbol symbol market_type
            let r := add_config max_configs configs symbol market_type window th
            match r.1 with
            | .capacityExceeded =>
              ⟨.IDLE, {}, r.2, enabled,
               ["⚠️ 已达到最大监控配置数量 (" ++ toString max_configs ++
                ")，无法添加更多配置",
                "⚠️ 处理过程中出错，已重置状态"]⟩
            | .added =>
              ⟨.ADD_CONFIG_CONTINUE, { data with threshold := some th }, r.2,
               enabled,
               ["✅ 已添加监控配置\n• 交易对: " ++ formatted ++
                "\n• 交易类型: " ++ marketName market_type ++
                "\n• 监控时长: " ++ toString window ++ "分钟" ++
                "\n• 涨跌幅阈值: " ++ toString th ++ "%",
                "❓ 是否继续添加其他监控配置？\n1. 是\n2. 否"]⟩
            | .alreadyExists =>
              ⟨.ADD_CONFIG_CONTINUE, { data with threshold := some th }, r.2,
               enabled,
               ["⚠️ " ++ formatted ++ " 在 " ++ toString window ++
                "分钟 的监控配置已存在",
                "❓ 是否继续添加其他监控配置？\n1. 是\n2. 否"]⟩
          | _, _, _ =>
            ⟨.IDLE, {}, configs, enabled, ["⚠️ 处理过程中出错，已重置状态"]⟩
      | none =>
        ⟨state, data, configs, enabled, ["⚠️ 阈值无效，请输入大于0的数字"]⟩
    | .ADD_CONFIG_CONTINUE =>
      if ["1", "1. 是", "是", "yes", "y"].contains text then
        ⟨.ADD_CONFIG_STEP1, {}, configs, enabled,
         ["📝 请输入要监控的币种（如 BTCUSDT）:"]⟩
      else if ["2", "2. 否", "否", "no", "n"].contains text then
        ⟨.IDLE, {}, configs, enabled,
         ["❓ 是否现在开启监控？\n1. 开启监控\n2. 暂不开启"]⟩
      else
        ⟨state, data, configs, enabled, ["⚠️ 请选择 \x271. 是\x27 或 \x272. 否\x27"]⟩
    | .START_MONITOR_QUESTION =>
      if ["1", "1. 开启监控", "开启监控"].contains text then
        ⟨.IDLE, {}, configs, true,
         ["✅ 监控已开启\n\n" ++ create_startup_message check_interval now_str configs]⟩
      else if ["2", "2. 暂不开启", "暂不开启"].contains text then
        ⟨.IDLE, {}, configs, enabled,
         ["⏸️ 监控未开启，您随时可以发送 \x273\x27 开启监控"]⟩
      else
        ⟨.IDLE, {}, configs, enabled,
         ["⚠️ 请选择 \x271. 开启监控\x27 或 \x272. 暂不开启\x27"]⟩
    | .REMOVE_CONFIG =>
      if configs.isEmpty then
        ⟨.IDLE, {}, configs, enabled, ["⚠️ 当前没有监控配置"]⟩
      else
        let lines := configs.enum.map (fun p =>
          toString (p.1 + 1) ++ ". " ++
          get_formatted_symbol p.2.symbol p.2.market_type ++
          " (" ++ toString p.2.window ++ "分钟, 阈值 " ++ toString p.2.threshold ++
          "%)")
        ⟨.REMOVE_CONFIG_SELECT, { configsSnapshot := some configs }, configs,
         enabled,
         ["🔍 当前监控配置:\n" ++ String.intercalate "\n" lines ++
          "\n\n请输入要删除的配置编号（输入 \x27all\x27 删除全部）:"]⟩
    | .REMOVE_CONFIG_SELECT =>
      match data.configsSnapshot with
      | none =>
        ⟨.IDLE, {}, configs, enabled, ["⚠️ 处理过程中出错，已重置状态"]⟩
      | some snapshot =>
        if pyLower text == "all" then
          ⟨.IDLE, {}, [], enabled, ["✅ 已删除所有监控配置"]⟩
        else
          match pyInt text with
          | none =>
            ⟨state, data, configs, enabled,
             ["⚠️ 请输入有效的配置编号或 \x27all\x27"]⟩
          | some n =>
            let index := n - 1
            if 0 ≤ index ∧ index < (snapshot.length : ℤ) then
              match snapshot[index.toNat]? with
              | some c =>
                let r := remove_config_window configs c.symbol c.market_type c.window
                ⟨.IDLE, {}, r.2, enabled,
                 ["✅ 已删除监控配置\n• 交易对: " ++
                  get_formatted_symbol c.symbol c.market_type ++
                  "\n• 时长: " ++ toString c.window ++ "分钟" ++
                  "\n• 阈值: " ++ toString c.threshold ++ "%"]⟩
              | none =>
                ⟨.IDLE, {}, configs, enabled, ["⚠️ 处理过程中出错，已重置状态"]⟩
            else
              ⟨state, data, configs, enabled, ["⚠️ 无效的配置编号"]⟩

/-- The help text sent by `handle_command` (lines 766-778). -/
def helpMessage : String :=
  "🤖 币安价格监控机器人\n\n" ++
  "数字命令菜单:\n" ++
  "1. 添加监控 - 添加新的监控配置\n" ++
  "2. 删除监控 - 删除现有监控配置\n" ++
  "3. 开启监控 - 启动价格监控\n" ++
  "4. 停止监控 - 暂停价格监控\n" ++
  "5. 查看状态 - 显示当前监控状态\n" ++
  "6. 帮助 - 显示此帮助信息\n\n" ++
  "⚠️ 注意: 每个币种可添加多个监控配置（不同时间段和阈值）"

/-- `NotificationManager.handle_command` (lines 762-839), an `elif` chain in
source order. -/
def handle_command (max_configs : ℕ) (check_interval : ℤ) (now_str : String)
    (state : ConvState) (data : SessionData) (configs : List MonitoringConfig)
    (enabled : Bool) (command : String) : FlowResult :=
  if ["/start", "/help", "6", "6. 帮助", "帮助"].contains command then
    ⟨state, data, configs, enabled, [helpMessage]⟩
  else if ["/status", "5", "5. 查看状态", "查看状态"].contains command then
    ⟨state, data, configs, enabled,
     ["📊 当前监控状态\n" ++ (if enabled then "✅ 监控已开启" else "⛔ 监控已关闭") ++
      "\n\n" ++ create_startup_message check_interval now_str configs]⟩
  else if ["/enable", "3", "3. 开启监控", "开启监控"].contains command then
    ⟨state, data, configs, true,
     ["✅ 监控已开启\n\n" ++ create_startup_message check_interval now_str configs]⟩
  else if ["/disable", "4", "4. 停止监控", "停止监控"].contains command then
    ⟨state, data, configs, false, ["⛔ 监控已关闭"]⟩
  else if ["1", "1. 添加监控", "添加监控"].contains command then
    ⟨.ADD_CONFIG_STEP1, {}, configs, enabled, ["📝 请输入要监控的币种（如 BTCUSDT）:"]⟩
  else if ["2", "2. 删除监控", "删除监控"].contains command then
    if configs.isEmpty then
      ⟨state, data, configs, enabled, ["⚠️ 当前没有监控配置"]⟩
    else
      ⟨.REMOVE_CONFIG, {}, configs, enabled, ["❌ 准备删除监控配置..."]⟩
  else if ["1. 开启监控", "开启监控", "3"].contains command then
    ⟨state, data, configs, true,
     ["✅ 监控已开启\n\n" ++ create_startup_message check_interval now_str configs]⟩
  else if ["2. 暂不开启", "暂不开启"].contains command then
    ⟨state, data, configs, enabled,
     ["⏸️ 监控未开启，您随时可以发送 \x273\x27 开启监控"]⟩
  else
    ⟨state, data, configs, enabled, ["⚠️ 未知命令，请输入 \x276\x27 查看帮助"]⟩

/-- The numeric-command normalisation dict of `process_commands`
(lines 514-531). -/
def command_mapping (text : String) : String :=
  if text == "1" || text == "1. 添加监控" then "添加监控"
  else if text == "2" || text == "2. 删除监控" then "删除监控"
  else if text == "3" || text == "3. 开启监控" then "开启监控"
  else if text == "4" || text == "4. 停止监控" then "停止监控"
  else if text == "5" || text == "5. 查看状态" then "查看状态"
  else if text == "6" || text == "6. 帮助" then "帮助"
  else text

/-- One inbound Telegram message: `message["chat"]["id"]` and
`message.get("text", "")`. -/
structure TgMessage where
  chat_id : ℤ
  text : String
  deriving DecidableEq, Repr

/-- One element of `getUpdates`' result list. -/
structure TgUpdate where
  update_id : ℤ
  message : Option TgMessage
  deriving DecidableEq, Repr

/-- The shared mutable state touched by `process_commands`: the per-chat
sessions (`self.user_state`), the registry contents and enabled flag
(`self.bot_state`), and the acknowledged offset (`self.last_update_id`). -/
structure BotSt where
  sessions : List (ℤ × ConvState × SessionData)
  configs : List MonitoringConfig
  enabled : Bool
  last_update_id : ℤ
  deriving DecidableEq, Repr

/-- Session lookup with the initialisation default `{"state": "IDLE",
"data": {}}` (lines 505-506). -/
def getSession (sessions : List (ℤ × ConvState × SessionData)) (chat : ℤ) :
    ConvState × SessionData :=
  match sessions.find? (fun p => p.1 == chat) with
  | some p => p.2
  | none => (.IDLE, {})

/-- Write back `self.user_state[chat_id]`. -/
def setSession (sessions : List (ℤ × ConvState × SessionData)) (chat : ℤ)
    (s : ConvState × SessionData) : List (ℤ × ConvState × SessionData) :=
  (chat, s) :: sessions.filter (fun p => p.1 != chat)

/-- The per-update body of `NotificationManager.process_commands`
(lines 490-534): advance `last_update_id`, skip updates without a message,
strip the text, reject a chat id whose string form differs from the
configured `TELEGRAM_CHAT_ID` (lines 500-502) before any session is touched,
then run the guided flow (non-idle session) or the mapped command (idle).
Returns the new state and the `(chat_id, text)` responses sent. -/
def process_update (auth_chat_id : String) (max_configs : ℕ)
    (check_interval : ℤ) (now_str : String) (st : BotSt) (u : TgUpdate) :
    BotSt × List (ℤ × String) :=
  let st1 : BotSt := ⟨st.sessions, st.configs, st.enabled, u.update_id⟩
  match u.message with
  | none => (st1, [])
  | some m =>
    let text := pyStrip m.text
    if toString m.chat_id ≠ auth_chat_id then
      (st1, [(m.chat_id, "⚠️ 您无权执行此命令")])
    else
      let session := getSession st1.sessions m.chat_id
      if session.1 ≠ ConvState.IDLE then
        let r := handle_guided_flow max_configs check_interval now_str
          session.1 session.2 st1.configs st1.enabled text
        (⟨setSession st1.sessions m.chat_id (r.state, r.data), r.configs,
          r.enabled, st1.last_update_id⟩,
         r.responses.map (fun s => (m.chat_id, s)))
      else
        let r := handle_command max_configs check_interval now_str
          session.1 session.2 st1.configs st1.enabled (command_mapping text)
        (⟨setSession st1.sessions m.chat_id (r.state, r.data), r.configs,
          r.enabled, st1.last_update_id⟩,
         r.responses.map (fun s => (m.chat_id, s)))

/-! ## Monitor loop and registry aliasing (`BinanceMonitor.monitor_prices`,
lines 914-993)

`monitor_prices` evaluates `configs = self.bot_state.get_all_configs()` once,
before `while True`; `get_all_configs` returns the live
`state["monitoring_configs"]` list object.  `add_config` appends to that
object in place, while `remove_config` and the bulk clear rebind
`state["monitoring_configs"]` to a freshly built list.  Python reference
semantics are embedded as a heap of list cells: `registryPtr` is the cell the
registry currently names, and the monitor loop holds whatever cell index it
captured at start-up. -/

/-- Heap of list cells plus the cell currently bound to
`state["monitoring_configs"]`. -/
structure RegistryHeap where
  cells : List (List MonitoringConfig)
  registryPtr : ℕ
  deriving DecidableEq, Repr

/-- The registry contents, as `get_all_configs` sees them at call time. -/
def heapRegistry (h : RegistryHeap) : List MonitoringConfig :=
  h.cells.getD h.registryPtr []

/-- The registry mutations the conversation engine can perform. -/
inductive RegistryOp where
  | addOp (symbol market_type : String) (window : ℤ) (threshold : ℚ)
  | removeOp (symbol market_type : String) (window : ℤ)
  | clearOp
  deriving DecidableEq, Repr

/-- `add_config` appends to the existing list object (line 156: `.append`),
so the cell is updated in place and the pointer is unchanged;
`remove_config` (lines 178-183) and the bulk clear (line 721) assign a newly
built list, so a fresh cell is allocated and the pointer moves while the old
cell keeps its old contents. -/
def applyRegistryOp (max_configs : ℕ) (h : RegistryHeap) :
    RegistryOp → RegistryHeap
  | .addOp s mt w th =>
    let r := add_config max_configs (heapRegistry h) s mt w th
    ⟨h.cells.set h.registryPtr r.2, h.registryPtr⟩
  | .removeOp s mt w =>
    let r := remove_config_window (heapRegistry h) s mt w
    ⟨h.cells ++ [r.2], h.cells.length⟩
  | .clearOp => ⟨h.cells ++ [[]], h.cells.length⟩

/-- `configs = self.bot_state.get_all_configs()` at `monitor_prices` entry
(line 917): the monitor loop captures the current cell, once. -/
def monitorCapture (h : RegistryHeap) : ℕ := h.registryPtr

/-- The rule list a monitor cycle iterates (line 954: `for config in
configs`), given the cell captured at start-up. -/
def cycleRules (h : RegistryHeap) (capturedPtr : ℕ) : List MonitoringConfig :=
  h.cells.getD capturedPtr []

/-! ## Helper lemmas -/

/-- Reading back the key just written into `last_alert_time`. -/
theorem dictGetQ_dictSetQ_self (m : List (String × ℚ)) (k : String) (v : ℚ) :
    dictGetQ (dictSetQ m k v) k = v := by
  simp [dictGetQ, dictSetQ]

/-- A valid, threshold-breaching change whose cooldown gate is open makes
`check_for_alerts` take the dispatch branch and stamp the key. -/
theorem check_for_alerts_fires (alert_cooldown : ℚ) (telegram_enabled : Bool)
    (outcome : TelegramOutcome) (symbol market_type : String) (window : ℤ)
    (sp cur chg threshold : ℚ) (times : List (String × ℚ)) (now : ℚ)
    (hsp : 0 < sp) (hcur : 0 < cur) (habs : |chg| ≤ 1000)
    (hthr : threshold ≤ |chg|)
    (hgate : alert_cooldown < now - dictGetQ times (alertKey symbol market_type window)) :
    check_for_alerts alert_cooldown telegram_enabled outcome symbol market_type
        window ⟨some sp, cur, chg⟩ threshold times now
      = ⟨true, send_alert_delivered telegram_enabled outcome,
         dictSetQ times (alertKey symbol market_type window) now⟩ := by
  simp only [check_for_alerts]
  rw [if_neg (not_or.mpr ⟨not_le.mpr hsp, not_le.mpr hcur⟩),
      if_neg (not_lt.mpr habs), if_pos hthr, if_pos hgate]

/-- A valid, threshold-breaching change whose cooldown gate is closed is
suppressed and leaves `last_alert_time` unchanged. -/
theorem check_for_alerts_cooldown_blocks (alert_cooldown : ℚ)
    (telegram_enabled : Bool) (outcome : TelegramOutcome)
    (symbol market_type : String) (window : ℤ) (sp cur chg threshold : ℚ)
    (times : List (String × ℚ)) (now : ℚ)
    (hsp : 0 < sp) (hcur : 0 < cur) (habs : |chg| ≤ 1000)
    (hthr : threshold ≤ |chg|)
    (hgate : ¬ alert_cooldown < now - dictGetQ times (alertKey symbol market_type window)) :
    check_for_alerts alert_cooldown telegram_enabled outcome symbol market_type
        window ⟨some sp, cur, chg⟩ threshold times now
      = ⟨false, false, times⟩ := by
  simp only [check_for_alerts]
  rw [if_neg (not_or.mpr ⟨not_le.mpr hsp, not_le.mpr hcur⟩),
      if_neg (not_lt.mpr habs), if_pos hthr, if_neg hgate]

/-! ## Claims -/

/-- Claim C1, counterexample.  The claim says that when dispatch fails the
cooldown timestamp for the key is not updated.  In the code,
`check_for_alerts` writes `last_alert_time[key] = now` unconditionally after
calling `send_alert`, which ignores the `send_telegram` result, so at this
concrete breaching evaluation with a failing HTTP send the stored timestamp
changes from the default 0 to the evaluation time. -/
theorem C1_cooldown_updated_on_failed_dispatch :
    ¬ ((check_for_alerts 300 true .httpError "BTCUSDT" "spot" 5
          ⟨some 100, 101, 1⟩ 1 [] 1000).delivered = false →
       dictGetQ (check_for_alerts 300 true .httpError "BTCUSDT" "spot" 5
          ⟨some 100, 101, 1⟩ 1 [] 1000).newTimes "BTCUSDT_spot_5"
         = dictGetQ [] "BTCUSDT_spot_5") := by
  intro h
  have h1 : check_for_alerts 300 true .httpError "BTCUSDT" "spot" 5
      ⟨some 100, 101, 1⟩ 1 [] 1000
      = ⟨true, false, [("BTCUSDT_spot_5", 1000)]⟩ := by
    rw [check_for_alerts_fires 300 true .httpError "BTCUSDT" "spot" 5
      100 101 1 1 [] 1000 (by norm_num) (by norm_num) (by norm_num)
      (by norm_num)
      (by rw [show dictGetQ [] (alertKey "BTCUSDT" "spot" 5) = 0 from rfl]
          norm_num)]
    rfl
  rw [h1] at h
  have h2 := h rfl
  rw [show dictGetQ [("BTCUSDT_spot_5", (1000:ℚ))] "BTCUSDT_spot_5" = 1000 from rfl,
      show dictGetQ [] "BTCUSDT_spot_5" = 0 from rfl] at h2
  exact absurd h2 (by norm_num)

/-- Claim C1, amended: if dispatching an alert fails (the single send
attempt — `send_telegram` performs no retries), the alert is dropped and the
cooldown timestamp for the (symbol, marketKind, window) key is updated to the
evaluation time anyway, so a threshold-breaching evaluation of the same key
within cooldownSeconds does not attempt dispatch again. -/
theorem C1_failed_dispatch_suppresses_retry (alert_cooldown threshold now now2
    sp cur chg : ℚ) (symbol market_type : String) (window : ℤ)
    (outcome : TelegramOutcome) (times : List (String × ℚ))
    (hfail : send_telegram outcome = false)
    (hsp : 0 < sp) (hcur : 0 < cur) (habs : |chg| ≤ 1000)
    (hthr : threshold ≤ |chg|)
    (hgate : alert_cooldown < now - dictGetQ times (alertKey symbol market_type window))
    (hwithin : now2 - now ≤ alert_cooldown) :
    (check_for_alerts alert_cooldown true outcome symbol market_type window
        ⟨some sp, cur, chg⟩ threshold times now).attempted = true ∧
    (check_for_alerts alert_cooldown true outcome symbol market_type window
        ⟨some sp, cur, chg⟩ threshold times now).delivered = false ∧
    dictGetQ (check_for_alerts alert_cooldown true outcome symbol market_type
        window ⟨some sp, cur, chg⟩ threshold times now).newTimes
        (alertKey symbol market_type window) = now ∧
    (check_for_alerts alert_cooldown true outcome symbol market_type window
        ⟨some sp, cur, chg⟩ threshold
        (check_for_alerts alert_cooldown true outcome symbol market_type window
          ⟨some sp, cur, chg⟩ threshold times now).newTimes now2).attempted
      = false := by
  have h1 := check_for_alerts_fires alert_cooldown true outcome symbol
    market_type window sp cur chg threshold times now hsp hcur habs hthr hgate
  have hkey : dictGetQ (dictSetQ times (alertKey symbol market_type window) now)
      (alertKey symbol market_type window) = now :=
    dictGetQ_dictSetQ_self _ _ _
  have h2 := check_for_alerts_cooldown_blocks alert_cooldown true outcome
    symbol market_type window sp cur chg threshold
    (dictSetQ times (alertKey symbol market_type window) now) now2
    hsp hcur habs hthr (by rw [hkey]; exact not_lt.mpr hwithin)
  refine ⟨by rw [h1], by rw [h1]; simp [send_alert_delivered, hfail],
    by rw [h1]; exact hkey, ?_⟩
  rw [h1]
  show (check_for_alerts alert_cooldown true outcome symbol market_type window
      ⟨some sp, cur, chg⟩ threshold
      (dictSetQ times (alertKey symbol market_type window) now) now2).attempted
    = false
  rw [h2]

/-- Claim C1 witness: a concrete breaching evaluation at time 1000 with a
failing send, followed by another breaching evaluation at time 1100 (within
the 300-second cooldown). -/
theorem C1_witness :
    send_telegram .httpError = false ∧ (0:ℚ) < 100 ∧ (0:ℚ) < 101 ∧
    |(1:ℚ)| ≤ 1000 ∧ (1:ℚ) ≤ |(1:ℚ)| ∧
    (300:ℚ) < 1000 - dictGetQ [] (alertKey "BTCUSDT" "spot" 5) ∧
    (1100:ℚ) - 1000 ≤ 300 ∧
    ((check_for_alerts 300 true .httpError "BTCUSDT" "spot" 5
        ⟨some 100, 101, 1⟩ 1 [] 1000).attempted = true ∧
     (check_for_alerts 300 true .httpError "BTCUSDT" "spot" 5
        ⟨some 100, 101, 1⟩ 1 [] 1000).delivered = false ∧
     dictGetQ (check_for_alerts 300 true .httpError "BTCUSDT" "spot" 5
        ⟨some 100, 101, 1⟩ 1 [] 1000).newTimes (alertKey "BTCUSDT" "spot" 5)
        = 1000 ∧
     (check_for_alerts 300 true .httpError "BTCUSDT" "spot" 5
        ⟨some 100, 101, 1⟩ 1
        (check_for_alerts 300 true .httpError "BTCUSDT" "spot" 5
          ⟨some 100, 101, 1⟩ 1 [] 1000).newTimes 1100).attempted = false) :=
  ⟨rfl, by norm_num, by norm_num, by norm_num, by norm_num,
   by rw [show dictGetQ [] (alertKey "BTCUSDT" "spot" 5) = 0 from rfl]; norm_num,
   by norm_num,
   C1_failed_dispatch_suppresses_retry 300 1 1000 1100 100 101 1 "BTCUSDT"
     "spot" 5 .httpError [] rfl (by norm_num) (by norm_num) (by norm_num)
     (by norm_num)
     (by rw [show dictGetQ [] (alertKey "BTCUSDT" "spot" 5) = 0 from rfl]
         norm_num)
     (by norm_num)⟩

/-- Claim C2: the code violates the claim.  `monitor_prices` captures the
rule list object once, before its `while True` loop; `remove_config` rebinds
`state["monitoring_configs"]` to a newly built list, so after a removal the
next cycle still iterates the removed rule while the registry is empty — the
cycle's rule set does not equal the registry contents at the start of the
cycle. -/
theorem C2_removed_rule_still_iterated :
    cycleRules
        (applyRegistryOp 20 ⟨[[⟨"BTCUSDT", "spot", 5, 1/2⟩]], 0⟩
          (.removeOp "BTCUSDT" "spot" 5))
        (monitorCapture ⟨[[⟨"BTCUSDT", "spot", 5, 1/2⟩]], 0⟩)
      = [⟨"BTCUSDT", "spot", 5, 1/2⟩] ∧
    heapRegistry
        (applyRegistryOp 20 ⟨[[⟨"BTCUSDT", "spot", 5, 1/2⟩]], 0⟩
          (.removeOp "BTCUSDT" "spot" 5))
      = [] ∧
    cycleRules
        (applyRegistryOp 20 ⟨[[⟨"BTCUSDT", "spot", 5, 1/2⟩]], 0⟩
          (.removeOp "BTCUSDT" "spot" 5))
        (monitorCapture ⟨[[⟨"BTCUSDT", "spot", 5, 1/2⟩]], 0⟩)
      ≠ heapRegistry
        (applyRegistryOp 20 ⟨[[⟨"BTCUSDT", "spot", 5, 1/2⟩]], 0⟩
          (.removeOp "BTCUSDT" "spot" 5)) := by
  refine ⟨rfl, rfl, ?_⟩
  rw [show heapRegistry
      (applyRegistryOp 20 ⟨[[⟨"BTCUSDT", "spot", 5, 1/2⟩]], 0⟩
        (.removeOp "BTCUSDT" "spot" 5)) = [] from rfl,
    show cycleRules
      (applyRegistryOp 20 ⟨[[⟨"BTCUSDT", "spot", 5, 1/2⟩]], 0⟩
        (.removeOp "BTCUSDT" "spot" 5))
      (monitorCapture ⟨[[⟨"BTCUSDT", "spot", 5, 1/2⟩]], 0⟩)
      = [⟨"BTCUSDT", "spot", 5, 1/2⟩] from rfl]
  exact List.cons_ne_nil _ _

/-- Claim C4: for one (symbol, marketKind, window) key, two valid
threshold-breaching evaluations with the second within `cooldownSeconds` of
the first dispatch produce exactly one dispatch: the first fires and stamps
the key with its time, the second is suppressed because
`now − lastAlertTime > cooldownSeconds` fails. -/
theorem C4_cooldown_exactly_one_alert (alert_cooldown threshold now1 now2
    sp1 cur1 chg1 sp2 cur2 chg2 : ℚ) (telegram_enabled : Bool)
    (outcome1 outcome2 : TelegramOutcome) (symbol market_type : String)
    (window : ℤ) (times : List (String × ℚ))
    (hsp1 : 0 < sp1) (hcur1 : 0 < cur1) (habs1 : |chg1| ≤ 1000)
    (hthr1 : threshold ≤ |chg1|)
    (hsp2 : 0 < sp2) (hcur2 : 0 < cur2) (habs2 : |chg2| ≤ 1000)
    (hthr2 : threshold ≤ |chg2|)
    (hgate : alert_cooldown < now1 - dictGetQ times (alertKey symbol market_type window))
    (hwithin : now2 - now1 ≤ alert_cooldown) :
    (check_for_alerts alert_cooldown telegram_enabled outcome1 symbol
        market_type window ⟨some sp1, cur1, chg1⟩ threshold times now1).attempted
      = true ∧
    dictGetQ (check_for_alerts alert_cooldown telegram_enabled outcome1 symbol
        market_type window ⟨some sp1, cur1, chg1⟩ threshold times now1).newTimes
        (alertKey symbol market_type window) = now1 ∧
    (check_for_alerts alert_cooldown telegram_enabled outcome2 symbol
        market_type window ⟨some sp2, cur2, chg2⟩ threshold
        (check_for_alerts alert_cooldown telegram_enabled outcome1 symbol
          market_type window ⟨some sp1, cur1, chg1⟩ threshold times
          now1).newTimes now2).attempted = false := by
  have h1 := check_for_alerts_fires alert_cooldown telegram_enabled outcome1
    symbol market_type window sp1 cur1 chg1 threshold times now1
    hsp1 hcur1 habs1 hthr1 hgate
  have hkey : dictGetQ (dictSetQ times (alertKey symbol market_type window) now1)
      (alertKey symbol market_type window) = now1 :=
    dictGetQ_dictSetQ_self _ _ _
  have h2 := check_for_alerts_cooldown_blocks alert_cooldown telegram_enabled
    outcome2 symbol market_type window sp2 cur2 chg2 threshold
    (dictSetQ times (alertKey symbol market_type window) now1) now2
    hsp2 hcur2 habs2 hthr2 (by rw [hkey]; exact not_lt.mpr hwithin)
  refine ⟨by rw [h1], by rw [h1]; exact hkey, ?_⟩
  rw [h1]
  show (check_for_alerts alert_cooldown telegram_enabled outcome2 symbol
      market_type window ⟨some sp2, cur2, chg2⟩ threshold
      (dictSetQ times (alertKey symbol market_type window) now1) now2).attempted
    = false
  rw [h2]

/-- Claim C4 witness: two breaching evaluations of the same key at times 1000
and 1100 with a 300-second cooldown; exactly the first one dispatches. -/
theorem C4_witness :
    (0:ℚ) < 100 ∧ (0:ℚ) < 101 ∧ |(1:ℚ)| ≤ 1000 ∧ (1:ℚ) ≤ |(1:ℚ)| ∧
    (0:ℚ) < 101 ∧ (0:ℚ) < 99 ∧ |(-2:ℚ)| ≤ 1000 ∧ (1:ℚ) ≤ |(-2:ℚ)| ∧
    (300:ℚ) < 1000 - dictGetQ [] (alertKey "ETHUSDT" "futures" 15) ∧
    (1100:ℚ) - 1000 ≤ 300 ∧
    ((check_for_alerts 300 true .ok "ETHUSDT" "futures" 15
        ⟨some 100, 101, 1⟩ 1 [] 1000).attempted = true ∧
     dictGetQ (check_for_alerts 300 true .ok "ETHUSDT" "futures" 15
        ⟨some 100, 101, 1⟩ 1 [] 1000).newTimes (alertKey "ETHUSDT" "futures" 15)
        = 1000 ∧
     (check_for_alerts 300 true .ok "ETHUSDT" "futures" 15
        ⟨some 101, 99, -2⟩ 1
        (check_for_alerts 300 true .ok "ETHUSDT" "futures" 15
          ⟨some 100, 101, 1⟩ 1 [] 1000).newTimes 1100).attempted = false) :=
  ⟨by norm_num, by norm_num, by norm_num, by norm_num, by norm_num,
   by norm_num, by norm_num, by norm_num,
   by rw [show dictGetQ [] (alertKey "ETHUSDT" "futures" 15) = 0 from rfl]; norm_num,
   by norm_num,
   C4_cooldown_exactly_one_alert 300 1 1000 1100 100 101 1 101 99 (-2) true
     .ok .ok "ETHUSDT" "futures" 15 [] (by norm_num) (by norm_num)
     (by norm_num) (by norm_num) (by norm_num) (by norm_num) (by norm_num)
     (by norm_num)
     (by rw [show dictGetQ [] (alertKey "ETHUSDT" "futures" 15) = 0 from rfl]
         norm_num)
     (by norm_num)⟩

/-- Claim C5: adding the same (symbol, marketKind, window) identity twice to a
registry that starts below capacity and without that identity returns `Added`
then `AlreadyExists`, and the registry grows by exactly one entry. -/
theorem C5_add_twice (max_configs : ℕ) (configs : List MonitoringConfig)
    (symbol market_type : String) (window : ℤ) (threshold : ℚ)
    (hnew : configs.any (fun c => sameIdentity c symbol market_type window) = false)
    (hcap : configs.length < max_configs) :
    (add_config max_configs configs symbol market_type window threshold).1
      = .added ∧
    (add_config max_configs
        (add_config max_configs configs symbol market_type window threshold).2
        symbol market_type window threshold).1 = .alreadyExists ∧
    (add_config max_configs
        (add_config max_configs configs symbol market_type window threshold).2
        symbol market_type window threshold).2.length
      = configs.length + 1 := by
  have hc1 : ¬ (configs.any (fun c => sameIdentity c symbol market_type window)
      = true) := by
    rw [hnew]; exact Bool.false_ne_true
  have h1 : add_config max_configs configs symbol market_type window threshold
      = (.added, configs ++
          [(⟨symbol, market_type, window, threshold⟩ : MonitoringConfig)]) := by
    simp only [add_config]
    rw [if_neg hc1, if_neg (not_le.mpr hcap)]
  have hdup : ((configs ++
      [(⟨symbol, market_type, window, threshold⟩ : MonitoringConfig)]).any
      (fun c => sameIdentity c symbol market_type window)) = true := by
    rw [List.any_append]
    simp [sameIdentity]
  have h2 : add_config max_configs
      (configs ++ [(⟨symbol, market_type, window, threshold⟩ : MonitoringConfig)])
      symbol market_type window threshold
      = (.alreadyExists, configs ++
          [(⟨symbol, market_type, window, threshold⟩ : MonitoringConfig)]) := by
    simp only [add_config]
    rw [if_pos hdup]
  refine ⟨by rw [h1], ?_, ?_⟩
  · rw [h1]
    show (add_config max_configs
      (configs ++ [(⟨symbol, market_type, window, threshold⟩ : MonitoringConfig)])
      symbol market_type window threshold).1 = .alreadyExists
    rw [h2]
  · rw [h1]
    show (add_config max_configs
      (configs ++ [(⟨symbol, market_type, window, threshold⟩ : MonitoringConfig)])
      symbol market_type window threshold).2.length = configs.length + 1
    rw [h2]
    simp

/-- Claim C5 witness: adding BTCUSDT/spot/5 twice to a one-element registry
with capacity 20. -/
theorem C5_witness :
    ([⟨"ETHUSDT", "spot", 15, 1⟩] : List MonitoringConfig).any
        (fun c => sameIdentity c "BTCUSDT" "spot" 5) = false ∧
    ([⟨"ETHUSDT", "spot", 15, 1⟩] : List MonitoringConfig).length < 20 ∧
    ((add_config 20 [⟨"ETHUSDT", "spot", 15, 1⟩] "BTCUSDT" "spot" 5 1).1
        = .added ∧
     (add_config 20
        (add_config 20 [⟨"ETHUSDT", "spot", 15, 1⟩] "BTCUSDT" "spot" 5 1).2
        "BTCUSDT" "spot" 5 1).1 = .alreadyExists ∧
     (add_config 20
        (add_config 20 [⟨"ETHUSDT", "spot", 15, 1⟩] "BTCUSDT" "spot" 5 1).2
        "BTCUSDT" "spot" 5 1).2.length
       = ([⟨"ETHUSDT", "spot", 15, 1⟩] : List MonitoringConfig).length + 1) :=
  ⟨rfl, by norm_num,
   C5_add_twice 20 [⟨"ETHUSDT", "spot", 15, 1⟩] "BTCUSDT" "spot" 5 1
     rfl (by norm_num)⟩

/-- Claim C6, counterexample.  The claim quantifies over any completed record
operation; `add_price` with a non-positive price returns before the purge
(lines 249-251), so a sample already older than the retention horizon stays
queryable after such a record completes.  Concretely: a series holding a
sample at time 0, a record of price −1 at time 100000 with a 24-hour
horizon. -/
theorem C6_invalid_price_skips_purge :
    ¬ (∀ e ∈ add_price 24 [⟨0, 1⟩] (some (-1)) 100000,
        ¬ e.timestamp < 100000 - 24 * 3600) := by
  intro h
  have hm : (⟨0, 1⟩ : PriceEntry) ∈ add_price 24 [⟨0, 1⟩] (some (-1)) 100000 := by
    rw [show add_price 24 [⟨0, 1⟩] (some (-1)) 100000 = [⟨0, 1⟩] from rfl]
    exact List.mem_singleton.mpr rfl
  exact (h ⟨0, 1⟩ hm) (by norm_num)

/-- Claim C6, amended: after any record operation that stores a sample (a
positive price) completes, no sample with a timestamp older than
`now − retentionHours` remains queryable in that series. -/
theorem C6_retention_after_insert (max_hours now p : ℚ)
    (series : List PriceEntry) (hp : 0 < p) :
    ∀ e ∈ add_price max_hours series (some p) now,
      ¬ e.timestamp < now - max_hours * 3600 := by
  intro e he
  simp only [add_price, if_neg (not_le.mpr hp)] at he
  simp only [cleanup_old_data, List.mem_filter, decide_eq_true_eq] at he
  exact lt_asymm he.2

/-- Claim C6 witness: recording price 1 at time 100000 over a stale series
purges everything older than the 24-hour horizon. -/
theorem C6_witness :
    (0:ℚ) < 1 ∧
    ∀ e ∈ add_price 24 [⟨0, 1⟩, ⟨99000, 2⟩] (some 1) 100000,
      ¬ e.timestamp < 100000 - 24 * 3600 :=
  ⟨by norm_num,
   C6_retention_after_insert 24 100000 1 [⟨0, 1⟩, ⟨99000, 2⟩] (by norm_num)⟩

/-- Claim C7: `add_config` on a registry already holding the configured
maximum, with an identity not present, returns `CapacityExceeded` and leaves
the contents unchanged. -/
theorem C7_capacity_exceeded (max_configs : ℕ) (configs : List MonitoringConfig)
    (symbol market_type : String) (window : ℤ) (threshold : ℚ)
    (hnew : configs.any (fun c => sameIdentity c symbol market_type window) = false)
    (hfull : configs.length = max_configs) :
    add_config max_configs configs symbol market_type window threshold
      = (.capacityExceeded, configs) := by
  have hc1 : ¬ (configs.any (fun c => sameIdentity c symbol market_type window)
      = true) := by
    rw [hnew]; exact Bool.false_ne_true
  simp only [add_config]
  rw [if_neg hc1, if_pos (le_of_eq hfull.symm)]

/-- Claim C7 witness: a registry of 20 entries at capacity 20 rejects a new
identity and is unchanged. -/
theorem C7_witness :
    (List.replicate 20 (⟨"ETHUSDT", "spot", 5, 1⟩ : MonitoringConfig)).any
        (fun c => sameIdentity c "BTCUSDT" "spot" 5) = false ∧
    (List.replicate 20 (⟨"ETHUSDT", "spot", 5, 1⟩ : MonitoringConfig)).length
      = 20 ∧
    add_config 20 (List.replicate 20 ⟨"ETHUSDT", "spot", 5, 1⟩)
        "BTCUSDT" "spot" 5 1
      = (.capacityExceeded, List.replicate 20 ⟨"ETHUSDT", "spot", 5, 1⟩) :=
  ⟨rfl, rfl,
   C7_capacity_exceeded 20 (List.replicate 20 ⟨"ETHUSDT", "spot", 5, 1⟩)
     "BTCUSDT" "spot" 5 1 rfl rfl⟩

/-- With only positive prices stored, the code's scan (which skips in-window
entries with a non-positive price) agrees with the spec-side earliest
in-window sample. -/
theorem findStart_eq_earliestInWindow (ws : ℚ) (series : List PriceEntry)
    (hpos : ∀ e ∈ series, 0 < e.price) :
    findStart ws series = earliestInWindow ws series := by
  induction series with
  | nil => rfl
  | cons e rest ih =>
    have he : 0 < e.price := hpos e (List.mem_cons_self e rest)
    have hrest : ∀ x ∈ rest, 0 < x.price :=
      fun x hx => hpos x (List.mem_cons_of_mem e hx)
    by_cases hws : ws ≤ e.timestamp
    · simp [findStart, earliestInWindow, List.find?_cons, hws, not_le.mpr he]
    · simp [findStart, earliestInWindow, List.find?_cons, hws, ih hrest]

/-- The scan succeeds whenever some in-window entry with a positive price is
stored. -/
theorem findStart_exists_of_mem (ws : ℚ) (series : List PriceEntry)
    (e : PriceEntry) (he : e ∈ series) (hws : ws ≤ e.timestamp)
    (hp : 0 < e.price) :
    ∃ sp, findStart ws series = some sp := by
  induction series with
  | nil => cases he
  | cons a rest ih =>
    by_cases hA : ws ≤ a.timestamp
    · by_cases hP : a.price ≤ 0
      · rcases List.mem_cons.mp he with h | hmem
        · exact absurd hP (not_le.mpr (h ▸ hp))
        · simpa [findStart, hA, hP] using ih hmem
      · exact ⟨a.price, by simp [findStart, hA, hP]⟩
    · rcases List.mem_cons.mp he with h | hmem
      · exact absurd (h ▸ hws) hA
      · simpa [findStart, hA] using ih hmem

/-- When every earlier entry is strictly out of window, the scan lands on the
final entry. -/
theorem findStart_only_last (ws : ℚ) (init : List PriceEntry)
    (last : PriceEntry) (hinit : ∀ e ∈ init, e.timestamp < ws)
    (hws : ws ≤ last.timestamp) (hp : 0 < last.price) :
    findStart ws (init ++ [last]) = some last.price := by
  induction init with
  | nil => simp [findStart, hws, not_le.mpr hp]
  | cons a rest ih =>
    have ha : a.timestamp < ws := hinit a (List.mem_cons_self a rest)
    have htail := ih (fun e hmem => hinit e (List.mem_cons_of_mem a hmem))
    simpa [findStart, List.cons_append, not_le.mpr ha] using htail

/-- Claim C3: for every recorded series (all stored prices positive, since
`add_price` drops non-positive prices) and every positive window,
`get_price_changes`' `start_price` is the price of the earliest stored sample
whose timestamp is ≥ `now − window`, where `now` is the code's reference time
(the latest sample's timestamp); and when no such sample exists the result is
the insufficient marker (`start_price = none`) rather than a numeric change. -/
theorem C3_windowed_change_start_price (init : List PriceEntry)
    (last : PriceEntry) (window : ℤ) (hw : 0 < window)
    (hpos : ∀ e ∈ init ++ [last], 0 < e.price) :
    (∀ sp, earliestInWindow (last.timestamp - (window : ℚ) * 60) (init ++ [last])
        = some sp →
      ∃ cd, get_price_changes_window (init ++ [last]) window = some cd ∧
        cd.start_price = some sp ∧ cd.current_price = last.price) ∧
    (earliestInWindow (last.timestamp - (window : ℚ) * 60) (init ++ [last])
        = none →
      get_price_changes_window (init ++ [last]) window
        = some ⟨none, last.price, 0⟩) := by
  have hF := findStart_eq_earliestInWindow
    (last.timestamp - (window : ℚ) * 60) (init ++ [last]) hpos
  constructor
  · intro sp hsp
    refine ⟨⟨some sp, last.price,
      round2 ((last.price - sp) / sp * 100)⟩, ?_, rfl, rfl⟩
    simp [get_price_changes_window, List.getLast?_concat, hF, hsp]
  · intro hnone
    simp [get_price_changes_window, List.getLast?_concat, hF, hnone]

/-- Claim C3 witness: series [(0, 100), (60, 101)] with a 5-minute window;
the earliest in-window sample is the one at time 0. -/
theorem C3_witness :
    (0:ℤ) < 5 ∧ (∀ e ∈ [(⟨0, 100⟩ : PriceEntry), ⟨60, 101⟩], 0 < e.price) ∧
    ((∀ sp, earliestInWindow ((60:ℚ) - (5 : ℚ) * 60)
        [(⟨0, 100⟩ : PriceEntry), ⟨60, 101⟩] = some sp →
      ∃ cd, get_price_changes_window [(⟨0, 100⟩ : PriceEntry), ⟨60, 101⟩] 5
          = some cd ∧ cd.start_price = some sp ∧ cd.current_price = 101) ∧
     (earliestInWindow ((60:ℚ) - (5 : ℚ) * 60)
        [(⟨0, 100⟩ : PriceEntry), ⟨60, 101⟩] = none →
      get_price_changes_window [(⟨0, 100⟩ : PriceEntry), ⟨60, 101⟩] 5
        = some ⟨none, 101, 0⟩)) :=
  ⟨by norm_num, by decide,
   C3_windowed_change_start_price [⟨0, 100⟩] ⟨60, 101⟩ 5 (by norm_num)
     (by decide)⟩

/-- Claim C10: for a non-empty recorded series (positive prices) and a
positive window the insufficient branch of `get_price_changes` is
unreachable — the latest sample itself satisfies
`timestamp ≥ referenceTime − window`, so the result is always numeric; and
when the latest sample is the only in-window sample, `start_price` equals
`current_price` and `change_percent` is 0. -/
theorem C10_insufficient_unreachable (init : List PriceEntry)
    (last : PriceEntry) (window : ℤ) (hw : 0 < window)
    (hpos : ∀ e ∈ init ++ [last], 0 < e.price) :
    (∃ cd sp, get_price_changes_window (init ++ [last]) window = some cd ∧
      cd.start_price = some sp) ∧
    ((∀ e ∈ init, e.timestamp < last.timestamp - (window : ℚ) * 60) →
      get_price_changes_window (init ++ [last]) window
        = some ⟨some last.price, last.price, 0⟩) := by
  have hlastmem : last ∈ init ++ [last] :=
    List.mem_append.mpr (Or.inr (List.mem_singleton.mpr rfl))
  have hlastpos : 0 < last.price := hpos last hlastmem
  have h60 : (0:ℚ) ≤ (window : ℚ) * 60 := by
    have : (0:ℚ) < (window : ℚ) := by exact_mod_cast hw
    nlinarith
  have hws : last.timestamp - (window : ℚ) * 60 ≤ last.timestamp :=
    sub_le_self _ h60
  constructor
  · obtain ⟨sp, hsp⟩ := findStart_exists_of_mem
      (last.timestamp - (window : ℚ) * 60) (init ++ [last]) last hlastmem hws
      hlastpos
    exact ⟨⟨some sp, last.price, round2 ((last.price - sp) / sp * 100)⟩, sp,
      by simp [get_price_changes_window, List.getLast?_concat, hsp], rfl⟩
  · intro honly
    have hfs := findStart_only_last (last.timestamp - (window : ℚ) * 60) init
      last honly hws hlastpos
    have hzero : round2 0 = 0 := by simp [round2]
    simp [get_price_changes_window, List.getLast?_concat, hfs, hzero]

/-- Claim C10 witness: series [(0, 100), (3600, 101)] with a 5-minute window;
only the latest sample is in window, so the change is 0. -/
theorem C10_witness :
    (0:ℤ) < 5 ∧ (∀ e ∈ [(⟨0, 100⟩ : PriceEntry), ⟨3600, 101⟩], 0 < e.price) ∧
    ((∃ cd sp, get_price_changes_window
        [(⟨0, 100⟩ : PriceEntry), ⟨3600, 101⟩] 5 = some cd ∧
        cd.start_price = some sp) ∧
     ((∀ e ∈ [(⟨0, 100⟩ : PriceEntry)], e.timestamp < (3600:ℚ) - (5 : ℚ) * 60) →
      get_price_changes_window [(⟨0, 100⟩ : PriceEntry), ⟨3600, 101⟩] 5
        = some ⟨some 101, 101, 0⟩)) :=
  ⟨by norm_num, by decide,
   C10_insufficient_unreachable [⟨0, 100⟩] ⟨3600, 101⟩ 5 (by norm_num)
     (by decide)⟩

/-- Claim C8: an inbound message whose chat identity's string form differs
from the configured authorized identity gets exactly the fixed rejection
response, and the state is untouched except for the acknowledged offset — no
session is created or advanced, the registry contents and the enabled flag
are unchanged. -/
theorem C8_unauthorized_rejected (auth_chat_id : String) (max_configs : ℕ)
    (check_interval : ℤ) (now_str : String) (st : BotSt) (u : TgUpdate)
    (m : TgMessage) (hm : u.message = some m)
    (hauth : toString m.chat_id ≠ auth_chat_id) :
    process_update auth_chat_id max_configs check_interval now_str st u
      = (⟨st.sessions, st.configs, st.enabled, u.update_id⟩,
         [(m.chat_id, "⚠️ 您无权执行此命令")]) := by
  simp [process_update, hm, hauth]

/-- Claim C8 witness: chat 999 against the authorized identity "12345" while
a session-free state with one rule is running. -/
theorem C8_witness :
    ((⟨7, some ⟨999, "1"⟩⟩ : TgUpdate)).message = some ⟨999, "1"⟩ ∧
    toString (999:ℤ) ≠ "12345" ∧
    process_update "12345" 20 60 "t"
        ⟨[], [⟨"ETHUSDT", "spot", 15, 1⟩], true, 0⟩ ⟨7, some ⟨999, "1"⟩⟩
      = (⟨[], [⟨"ETHUSDT", "spot", 15, 1⟩], true, 7⟩,
         [(999, "⚠️ 您无权执行此命令")]) :=
  ⟨rfl, by decide,
   C8_unauthorized_rejected "12345" 20 60 "t"
     ⟨[], [⟨"ETHUSDT", "spot", 15, 1⟩], true, 0⟩ ⟨7, some ⟨999, "1"⟩⟩
     ⟨999, "1"⟩ rfl (by decide)⟩

/-- Claim C9, counterexample.  The claim quantifies over every input that is
not a positive integer, but the cancel tokens are checked first
(line 544): in `ADD_CONFIG_STEP3` the input "exit" is not a positive integer
yet it resets the session to idle, discards the collected data and sends the
cancellation response instead of a validation error. -/
theorem C9_cancel_token_escapes_addwindow :
    ¬ ((handle_guided_flow 20 60 "t" .ADD_CONFIG_STEP3
          ⟨some "BTCUSDT", some "spot", none, none, none⟩ [] true "exit").state
        = .ADD_CONFIG_STEP3 ∧
       (handle_guided_flow 20 60 "t" .ADD_CONFIG_STEP3
          ⟨some "BTCUSDT", some "spot", none, none, none⟩ [] true "exit").data
        = ⟨some "BTCUSDT", some "spot", none, none, none⟩ ∧
       (handle_guided_flow 20 60 "t" .ADD_CONFIG_STEP3
          ⟨some "BTCUSDT", some "spot", none, none, none⟩ [] true
          "exit").responses
        = ["⚠️ 监控时长无效，请输入大于0的整数"]) := by
  intro h
  have h1 : (handle_guided_flow 20 60 "t" .ADD_CONFIG_STEP3
      ⟨some "BTCUSDT", some "spot", none, none, none⟩ [] true "exit").state
      = .IDLE := rfl
  rw [h1] at h
  exact absurd h.1 (by decide)

/-- Claim C9, amended: a session in `ADD_CONFIG_STEP3` (AddWindow) that
receives an input which is not a positive integer and does not match a cancel
token ("取消"/"exit"/"quit"/"/cancel", case-insensitively) stays in
`ADD_CONFIG_STEP3` with its collected data unchanged, gets the
validation-error response, and causes no registry mutation. -/
theorem C9_addwindow_invalid_input (max_configs : ℕ) (check_interval : ℤ)
    (now_str : String) (data : SessionData) (configs : List MonitoringConfig)
    (enabled : Bool) (text : String)
    (hcancel : cancelTokens.contains (pyLower text) = false)
    (hnotpos : pyInt text = none ∨ ∃ w, pyInt text = some w ∧ w ≤ 0) :
    handle_guided_flow max_configs check_interval now_str .ADD_CONFIG_STEP3
        data configs enabled text
      = ⟨.ADD_CONFIG_STEP3, data, configs, enabled,
         ["⚠️ 监控时长无效，请输入大于0的整数"]⟩ := by
  have hnc : pyLower text ∉ cancelTokens := by simpa using hcancel
  rcases hnotpos with hn | ⟨w, hw, hle⟩
  · simp [handle_guided_flow, hnc, hn]
  · simp [handle_guided_flow, hnc, hw, hle]

/-- Claim C9 witness: input "abc" in `ADD_CONFIG_STEP3` with collected
symbol/market data and a one-rule registry. -/
theorem C9_witness :
    cancelTokens.contains (pyLower "abc") = false ∧ pyInt "abc" = none ∧
    handle_guided_flow 20 60 "t" .ADD_CONFIG_STEP3
        ⟨some "BTCUSDT", some "spot", none, none, none⟩
        [⟨"ETHUSDT", "spot", 15, 1⟩] true "abc"
      = ⟨.ADD_CONFIG_STEP3, ⟨some "BTCUSDT", some "spot", none, none, none⟩,
         [⟨"ETHUSDT", "spot", 15, 1⟩], true,
         ["⚠️ 监控时长无效，请输入大于0的整数"]⟩ :=
  ⟨rfl, rfl,
   C9_addwindow_invalid_input 20 60 "t"
     ⟨some "BTCUSDT", some "spot", none, none, none⟩
     [⟨"ETHUSDT", "spot", 15, 1⟩] true "abc" rfl (Or.inl rfl)⟩
